import Mathlib

/-!
# Verification of the Agent Usage Analytics & XP Engine

Shallow embedding of `gamification/core/agent_logs_analyzer.py` and
`gamification/core/xp_system_redesign.py`.

Modelling conventions:
* Python floats are modelled as exact rationals (`ℚ`); `int(x)` truncation
  toward zero is `pyInt`; Python `max`/`min` are `pyMax`/`pyMin`.
* Python strings are Lean `String`s, manipulated through their character
  lists (`String.data`) so that every operation is kernel-computable.
* `datetime` timestamps are rational epoch seconds (UTC); `.date()` is the
  calendar day `⌊t / 86400⌋`; `(t2 - t1).total_seconds()` is `t2 - t1`.
* Python dict iteration order (insertion order) is preserved by using
  ordered association lists; `set`-to-`list` conversion, whose order is
  hash-dependent in CPython and in particular not sorted, is modelled as
  first-occurrence deduplication (`List.dedup`).
-/

/-- Python `int(q)`: truncation toward zero (`q.num`/`q.den` are in lowest
terms with positive denominator, so `tdiv` is exact truncation). -/
def pyInt (q : ℚ) : ℤ := Int.tdiv q.num q.den

/-- Mathematical floor of a rational, used to model `datetime.date()`. -/
def ratFloor (q : ℚ) : ℤ := Int.fdiv q.num q.den

/-- Python `max(a, b)` (returns the first argument on ties). -/
def pyMax (a b : ℚ) : ℚ := if a < b then b else a

/-- Python `min(a, b)` (returns the first argument on ties). -/
def pyMin (a b : ℚ) : ℚ := if a ≤ b then a else b

/-- Does `needle` occur at the head of the second list? -/
def leadMatch : List Char → List Char → Bool
  | [], _ => true
  | _ :: _, [] => false
  | a :: as, b :: bs => a == b && leadMatch as bs

/-- Does `needle` occur anywhere in the haystack? -/
def subScan (needle : List Char) : List Char → Bool
  | [] => leadMatch needle []
  | c :: cs => leadMatch needle (c :: cs) || subScan needle cs

/-- Python `needle in hay` on strings. -/
def strContains (hay needle : String) : Bool := subScan needle.data hay.data

/-- Python `s.lower()`. -/
def lowerStr (s : String) : String := ⟨s.data.map Char.toLower⟩

/-- Python `s[:n]`. -/
def takeStr (s : String) (n : ℕ) : String := ⟨s.data.take n⟩

/-- Python `s.strip()`. -/
def trimStr (s : String) : String :=
  ⟨((s.data.dropWhile Char.isWhitespace).reverse.dropWhile Char.isWhitespace).reverse⟩

/-- Python `len(s)` on a string. -/
def lenStr (s : String) : ℕ := s.data.length

/-- Lexicographic comparison of character lists (Python string `<=`). -/
def lexLe : List Char → List Char → Bool
  | [], _ => true
  | _ :: _, [] => false
  | a :: as, b :: bs => if a = b then lexLe as bs else decide (a < b)

/-- Python string `a <= b`. -/
def strLeB (a b : String) : Bool := lexLe a.data b.data

/-! ## Data model (`agent_logs_analyzer.py` dataclasses) -/

/-- Dataclass `AgentInvocation`. -/
structure AgentInvocation where
  agent_name : String
  session_id : String
  timestamp : ℚ
  project_path : String
  task_description : String
  tools_used : List String
  success : Bool
  error_message : Option String
  duration_seconds : ℚ
  tokens_used : ℕ
  model : String
  git_branch : String
  collaboration_agents : List String
  specialization_bonus : ℤ
  collaboration_bonus : ℤ
  complexity_score : ℚ
deriving DecidableEq

/-- Dataclass `SquadFormation`. -/
structure SquadFormation where
  session_id : String
  agents : List String
  start_time : ℚ
  end_time : ℚ
  project_path : String
  total_tasks : ℕ
  success_rate : ℚ
  synergy_score : ℚ
  formation_type : String
deriving DecidableEq

/-- Dataclass `AgentXPCalculation`. -/
structure AgentXPCalculation where
  agent_name : String
  base_xp : ℤ
  success_bonus : ℤ
  tool_mastery_bonus : ℤ
  complexity_bonus : ℤ
  collaboration_bonus : ℤ
  specialization_bonus : ℤ
  consistency_bonus : ℤ
  total_xp : ℤ
  level : ℕ
  next_level_xp : ℤ
deriving DecidableEq

/-! ## Analyzer configuration tables (`AgentLogsAnalyzer.__init__`) -/

/-- The `specialization_categories` dict, in insertion order. -/
def specializationCategories : List (String × List String) :=
  [("python", ["python-elite", "python-pro", "data-engineer", "ai-engineer", "ml-engineer"]),
   ("javascript", ["javascript-pro", "frontend-developer", "full-stack-architect"]),
   ("backend", ["backend-architect", "golang-pro", "rust-pro", "sql-pro"]),
   ("infrastructure", ["devops-engineer", "cloud-architect", "deployment-engineer", "incident-commander"]),
   ("quality", ["test-engineer", "code-reviewer", "performance-engineer", "quality-engineer"]),
   ("security", ["security-auditor"]),
   ("data", ["data-engineer", "data-ai-ml-engineer", "ml-engineer", "ai-engineer"]),
   ("business", ["business-analyst", "content-marketer", "user-feedback-analyst"]),
   ("product", ["api-documenter", "dx-optimizer", "tech-portfolio-resume-review-specialist"])]

/-- The `squad_formations` dict, in insertion order. -/
def squadFormationCatalog : List (String × List String) :=
  [("full-stack", ["frontend-developer", "backend-architect", "database-optimizer"]),
   ("data-pipeline", ["data-engineer", "ai-engineer", "devops-engineer"]),
   ("security-audit", ["security-auditor", "code-reviewer", "devops-engineer"]),
   ("performance-optimization", ["performance-engineer", "database-optimizer", "cloud-architect"]),
   ("feature-development", ["frontend-developer", "backend-architect", "test-engineer"]),
   ("ml-deployment", ["ml-engineer", "devops-engineer", "cloud-architect"]),
   ("incident-response", ["incident-commander", "devops-troubleshooter", "security-auditor"])]

/-- The `xp_levels` threshold table `(threshold, level)`. -/
def xpLevels : List (ℕ × ℕ) :=
  [(0, 1), (100, 2), (300, 3), (600, 4), (1000, 5),
   (1500, 6), (2500, 7), (4000, 8), (6000, 9), (10000, 10)]

/-- Scan helper for `_calculate_level_from_xp`: iterate pairs, returning the
level of the first pair whose threshold is `≤ xp`, defaulting to 1. -/
def levelLookupRev : List (ℕ × ℕ) → ℤ → ℕ
  | [], _ => 1
  | (t, l) :: rest, xp => if (t : ℤ) ≤ xp then l else levelLookupRev rest xp

/-- Method `_calculate_level_from_xp`: iterates `reversed(self.xp_levels)`. -/
def calcLevelFromXP (xp : ℤ) : ℕ := levelLookupRev xpLevels.reverse xp

/-- Scan helper for `_get_next_level_xp`: first threshold whose level exceeds
the current level, with the given fallback. -/
def nextLevelScan (fallback : ℤ) : List (ℕ × ℕ) → ℕ → ℤ
  | [], _ => fallback
  | (t, l) :: rest, cur => if cur < l then (t : ℤ) else nextLevelScan fallback rest cur

/-- Method `_get_next_level_xp` (falls back to `xp_levels[-1][0]`). -/
def getNextLevelXP (current : ℕ) : ℤ :=
  nextLevelScan ((xpLevels.getLastD (0, 1)).1 : ℤ) xpLevels current

/-! ## Log entry model

A `LogEntry` models one parsed JSONL object.  The fields mirror exactly the
keys the analyzer reads.  `timestamp` is the already-parsed value:
`none` models both a missing/empty `"timestamp"` string and a string
`datetime.fromisoformat` rejects.  `contentRepr` models the Python string
`str()` of a structured (list-shaped) message content — the analyzer only
ever feeds that `str()` image to the tool-pattern scan and to error
messages, and the JSON `repr` itself is not reconstructed here. -/

/-- One element of a structured message content list. -/
structure ContentItem where
  typ : String
  text : String
deriving DecidableEq

/-- The `"content"` field of a message: absent, a plain string, or a list. -/
inductive ContentVal where
  | missing : ContentVal
  | ofStr : String → ContentVal
  | ofItems : List ContentItem → ContentVal
deriving DecidableEq

/-- The `"usage"` object of an assistant message. -/
structure UsageVal where
  input_tokens : ℕ
  output_tokens : ℕ
  cache_read_input_tokens : ℕ
deriving DecidableEq

/-- The `"message"` object of a log entry. -/
structure MessageVal where
  content : ContentVal
  contentRepr : String
  usage : Option UsageVal
  model : Option String
deriving DecidableEq

/-- One parsed JSONL log entry. -/
structure LogEntry where
  type : String
  timestamp : Option ℚ
  sessionId : Option String
  message : Option MessageVal
  gitBranch : Option String
  toolUseResult : Option String
deriving DecidableEq

/-- Method `_extract_message_content`: a plain string content is returned
as-is; a list content concatenates the `"text"` of each `"type": "text"`
item followed by a space, then strips. -/
def extractMessageContent (e : LogEntry) : String :=
  match e.message with
  | none => ""
  | some m =>
    match m.content with
    | ContentVal.missing => ""
    | ContentVal.ofStr s => s
    | ContentVal.ofItems items =>
      trimStr ⟨(items.filter (fun it => it.typ = "text")).flatMap (fun it => it.text.data ++ [' '])⟩

/-- The `tool_patterns` dict of `_extract_tools_from_entry`, in insertion
order: lowercase tool key paired with the name the regex looks for. -/
def toolPatternList : List (String × String) :=
  [("bash", "Bash"), ("edit", "Edit"), ("read", "Read"), ("write", "Write"),
   ("grep", "Grep"), ("glob", "Glob"), ("ls", "LS"), ("multiedit", "MultiEdit"),
   ("webfetch", "WebFetch"), ("websearch", "WebSearch")]

/-- Match a literal against the head of a list, returning the remainder. -/
def stripLead : List Char → List Char → Option (List Char)
  | [], rest => some rest
  | _ :: _, [] => none
  | a :: as, b :: bs => if a = b then stripLead as bs else none

/-- Does the regex `"name":\s*"<tool>"` match at the head of `cs`? -/
def toolMarkHere (tool : String) (cs : List Char) : Bool :=
  match stripLead ("\"name\":").data cs with
  | none => false
  | some rest => leadMatch ("\"" ++ tool ++ "\"").data (rest.dropWhile Char.isWhitespace)

/-- Does the regex `"name":\s*"<tool>"` match anywhere in `cs`
(`re.search`)? -/
def toolMarkScan (tool : String) : List Char → Bool
  | [] => toolMarkHere tool []
  | c :: cs => toolMarkHere tool (c :: cs) || toolMarkScan tool cs

/-- Python `str(message.get("content", ""))` as fed to the tool regexes. -/
def pyStrContent (m : MessageVal) : String :=
  match m.content with
  | ContentVal.missing => ""
  | ContentVal.ofStr s => s
  | ContentVal.ofItems _ => m.contentRepr

/-- Method `_extract_tools_from_entry`: only assistant entries with a
message are scanned; matching tool keys are collected in dict order. -/
def extractToolsFromEntry (e : LogEntry) : List String :=
  match e.message with
  | none => []
  | some m =>
    if e.type = "assistant" then
      (toolPatternList.filter (fun p => toolMarkScan p.2 (pyStrContent m).data)).map (fun p => p.1)
    else []

/-- Method `_extract_token_usage`: assistant entries sum
`input_tokens + output_tokens + cache_read_input_tokens`, else 0. -/
def extractTokenUsage (e : LogEntry) : ℕ :=
  match e.message with
  | none => 0
  | some m =>
    if e.type = "assistant" then
      match m.usage with
      | none => 0
      | some u => u.input_tokens + u.output_tokens + u.cache_read_input_tokens
    else 0

/-- Method `_extract_model_info`. -/
def extractModelInfo (e : LogEntry) : String :=
  match e.message with
  | none => ""
  | some m => if e.type = "assistant" then m.model.getD "" else ""

/-- The error message recorded on a `toolUseResult == "Error"` hit:
`str(entry.get("message", {}).get("content", "Tool use error"))`. -/
def errMsgOfEntry (e : LogEntry) : String :=
  match e.message with
  | none => "Tool use error"
  | some m =>
    match m.content with
    | ContentVal.missing => "Tool use error"
    | ContentVal.ofStr s => s
    | ContentVal.ofItems _ => m.contentRepr

/-- Does this entry trip the error scan of `_determine_task_success`? -/
def entryHasErrorMarker (e : LogEntry) : Bool :=
  e.toolUseResult == some "Error" ||
    (extractMessageContent e != "" &&
      (strContains (lowerStr (extractMessageContent e)) "error" ||
        strContains (lowerStr (extractMessageContent e)) "failed"))

/-- The scanning loop body of `_determine_task_success`: walk the entries,
stopping at the first error indicator. -/
def scanWindow : List LogEntry → Bool × Option String
  | [] => (true, none)
  | e :: rest =>
    if e.toolUseResult = some "Error" then (false, some (errMsgOfEntry e))
    else
      let content := extractMessageContent e
      if content ≠ "" ∧
          (strContains (lowerStr content) "error" = true ∨
            strContains (lowerStr content) "failed" = true) then
        (false, some (takeStr content 200))
      else scanWindow rest

/-- Method `_determine_task_success`: scans
`range(start_idx, min(start_idx + 5, len(entries)))`, i.e. the slice
`entries[start_idx : start_idx + 5]` — the entry itself plus up to four
subsequent entries. -/
def determineTaskSuccess (entries : List LogEntry) (start : ℕ) : Bool × Option String :=
  scanWindow ((entries.drop start).take 5)

/-- Stated from the claim's wording, for refinement comparison only: scan
the next up-to-5 entries strictly after index `start`. -/
def specDetermineTaskSuccess (entries : List LogEntry) (start : ℕ) : Bool × Option String :=
  scanWindow ((entries.drop (start + 1)).take 5)

/-- The `complexity_indicators` keyword list. -/
def complexityIndicators : List String :=
  ["architecture", "design", "refactor", "optimize", "debug",
   "implement", "deploy", "test", "analyze", "review"]

/-- Method `_calculate_complexity_score`. -/
def calculateComplexityScore (content : String) (tools_used : List String) (tokens_used : ℕ) : ℚ :=
  let s0 : ℚ := 0 + pyMin ((lenStr content : ℚ) / 1000) 2
  let s1 : ℚ := s0 + (tools_used.dedup.length : ℚ) * (3 / 10)
  let s2 : ℚ := s1 +
    (if 2000 < tokens_used then (2 : ℚ)
     else if 1000 < tokens_used then 1
     else if 500 < tokens_used then 1 / 2
     else 0)
  let s3 : ℚ := s2 +
    ((complexityIndicators.filter
      (fun kw => strContains (lowerStr content) kw)).length : ℚ) * (1 / 5)
  pyMin s3 5

/-- Method `_extract_agent_invocations_from_entries`, restricted to the
entry at index `i`.  The regex-based agent-name detector
(`detect_agent_invocations`) is passed as a parameter `detect`; the
theorems below hold for every detector, so nothing is assumed about it. -/
def invocationsFromEntry (detect : String → List String) (entries : List LogEntry)
    (project_path : String) (i : ℕ) : List AgentInvocation :=
  match entries.get? i with
  | none => []
  | some entry =>
    if entry.type = "user" ∨ entry.type = "assistant" then
      match entry.timestamp with
      | none => []
      | some ts =>
        let session_id := entry.sessionId.getD "unknown"
        let content := extractMessageContent entry
        if content = "" then []
        else
          let tools := extractToolsFromEntry entry
          let tokens := extractTokenUsage entry
          let mdl := extractModelInfo entry
          let sc := determineTaskSuccess entries i
          let complexity := calculateComplexityScore content tools tokens
          (detect content).map (fun name =>
            { agent_name := name
              session_id := session_id
              timestamp := ts
              project_path := project_path
              task_description := takeStr content 500
              tools_used := tools
              success := sc.1
              error_message := sc.2
              duration_seconds := 0
              tokens_used := tokens
              model := mdl
              git_branch := entry.gitBranch.getD ""
              collaboration_agents := []
              specialization_bonus := 0
              collaboration_bonus := 0
              complexity_score := complexity })
    else []

/-- Method `_extract_agent_invocations_from_entries` over a whole file. -/
def extractAgentInvocationsFromEntries (detect : String → List String)
    (entries : List LogEntry) (project_path : String) : List AgentInvocation :=
  (List.range entries.length).flatMap (invocationsFromEntry detect entries project_path)

/-! ## Collaboration backfill and squad formations -/

/-- The per-session grouping `sessions[inv.session_id]`, in input order. -/
def sessionInvocations (invs : List AgentInvocation) (sid : String) : List AgentInvocation :=
  invs.filter (fun i => i.session_id = sid)

/-- Method `_add_collaboration_context`: sessions with more than one
invocation get each invocation's `collaboration_agents` replaced by the
session's agent names with every occurrence of its own name removed
(Python mutates the objects in place; here the list is rebuilt in the same
order). -/
def addCollaborationContext (invs : List AgentInvocation) : List AgentInvocation :=
  invs.map (fun inv =>
    let sess := sessionInvocations invs inv.session_id
    if 1 < sess.length then
      { inv with collaboration_agents :=
          (sess.map (fun j => j.agent_name)).filter (fun n => n ≠ inv.agent_name) }
    else inv)

/-- The inner double loop of `_classify_squad_formation` and
`_calculate_synergy_score`: the categories an agent belongs to, in dict
order. -/
def catsOfAgent (name : String) : List String :=
  (specializationCategories.filter (fun p => name ∈ p.2)).map (fun p => p.1)

/-- Python `'-'.join(l)`. -/
def joinHyphen : List String → String
  | [] => ""
  | [s] => s
  | s :: rest => s ++ "-" ++ joinHyphen rest

/-- Method `_classify_squad_formation`.  `len(set(agents) & set(members))`
is the number of distinct agents that are also members. -/
def classifySquadFormation (agents : List String) : String :=
  match squadFormationCatalog.find?
      (fun p => 2 ≤ (agents.dedup.filter (fun a => a ∈ p.2)).length) with
  | some p => p.1
  | none =>
    let specializations := agents.flatMap catsOfAgent
    let distinct := specializations.dedup
    if 3 ≤ distinct.length then "multi-disciplinary"
    else if distinct.length = 2 then
      joinHyphen (List.insertionSort (fun a b => strLeB a b = true) distinct)
    else "specialized"

/-- Consecutive differences `timestamps[i+1] - timestamps[i]`. -/
def gapsOf : List ℚ → List ℚ
  | [] => []
  | [_] => []
  | a :: b :: rest => (b - a) :: gapsOf (b :: rest)

/-- Method `_calculate_synergy_score`. -/
def calcSynergyScore (agents : List String) (invocations : List AgentInvocation) : ℚ :=
  if agents.length < 2 then 0
  else
    let specializations := (agents.flatMap catsOfAgent).dedup
    let specialization_score : ℚ := (specializations.length : ℚ) / (agents.length : ℚ)
    let success_rate : ℚ :=
      ((invocations.filter (fun i => i.success)).length : ℚ) / (invocations.length : ℚ)
    let timestamps := List.insertionSort (fun a b : ℚ => a ≤ b) (invocations.map (fun i => i.timestamp))
    let time_spans := gapsOf timestamps
    let avg_gap : ℚ := if time_spans.length ≠ 0 then time_spans.sum / (time_spans.length : ℚ) else 0
    let coordination_score := pyMax 0 (1 - avg_gap / 3600)
    (specialization_score + success_rate + coordination_score) / 3

/-- The in-place `session_invocations.sort(key=lambda x: x.timestamp)` of
`detect_squad_formations`: Python's sort is stable, modelled by a stable
insertion sort. -/
def sortedSession (invs : List AgentInvocation) (sid : String) : List AgentInvocation :=
  List.insertionSort (fun a b => a.timestamp ≤ b.timestamp) (sessionInvocations invs sid)

/-- The local `agents = list(set(...))` of `detect_squad_formations`:
`set`-to-`list` is modelled as first-occurrence dedup (CPython's set order
is hash-dependent; no branch of the code sorts it). -/
def sessionAgents (invs : List AgentInvocation) (sid : String) : List String :=
  ((sortedSession invs sid).map (fun i => i.agent_name)).dedup

/-- The per-session body of `detect_squad_formations` (the two `continue`
guards, then the `SquadFormation` construction). -/
def formationOfSession (invs : List AgentInvocation) (sid : String) : Option SquadFormation :=
  if (sessionInvocations invs sid).length < 2 then none
  else if (sessionAgents invs sid).length < 2 then none
  else some
    { session_id := sid
      agents := sessionAgents invs sid
      start_time := ((sortedSession invs sid).map (fun i => i.timestamp)).headD 0
      end_time := ((sortedSession invs sid).map (fun i => i.timestamp)).getLastD 0
      project_path := ((sortedSession invs sid).map (fun i => i.project_path)).headD ""
      total_tasks := (sortedSession invs sid).length
      success_rate :=
        if 0 < (sortedSession invs sid).length then
          (((sortedSession invs sid).filter (fun i => i.success)).length : ℚ) /
            ((sortedSession invs sid).length : ℚ)
        else 0
      synergy_score := calcSynergyScore (sessionAgents invs sid) (sortedSession invs sid)
      formation_type := classifySquadFormation (sessionAgents invs sid) }

/-- Method `detect_squad_formations`: sessions in first-seen order. -/
def detectSquadFormations (invs : List AgentInvocation) : List SquadFormation :=
  ((invs.map (fun i => i.session_id)).dedup).filterMap (formationOfSession invs)

/-! ## Per-agent XP (`_calculate_individual_agent_xp` and helpers) -/

/-- The first category containing the agent (`break` on first match). -/
def primarySpecialization (agent_name : String) : Option String :=
  (specializationCategories.find? (fun p => agent_name ∈ p.2)).map (fun p => p.1)

/-- Dict lookup `specialization_categories[spec]`. -/
def specializationMembers (spec : String) : List String :=
  ((specializationCategories.find? (fun p => p.1 = spec)).map (fun p => p.2)).getD []

/-- Method `_calculate_specialization_bonus`: 20 per distinct project path
containing the specialization name or one of its member names. -/
def calculateSpecializationBonus (agent_name : String) (invocations : List AgentInvocation) : ℤ :=
  match primarySpecialization agent_name with
  | none => 0
  | some spec =>
    let matching := invocations.filter (fun inv =>
      strContains (lowerStr inv.project_path) spec ||
        (specializationMembers spec).any (fun kw => strContains (lowerStr inv.project_path) kw))
    (((matching.map (fun inv => inv.project_path)).dedup.length : ℤ)) * 20

/-- Method `_calculate_consistency_bonus`: tiers on distinct usage days. -/
def calculateConsistencyBonus (invocations : List AgentInvocation) : ℤ :=
  if invocations.length < 2 then 0
  else
    let usage_dates := (invocations.map (fun inv => ratFloor (inv.timestamp / 86400))).dedup
    if 7 ≤ usage_dates.length then 100
    else if 3 ≤ usage_dates.length then 50
    else if 2 ≤ usage_dates.length then 25
    else 0

/-- Method `_calculate_individual_agent_xp`. -/
def calcIndividualAgentXP (agent_name : String) (invocations : List AgentInvocation) : AgentXPCalculation :=
  let base_xp : ℤ := (invocations.length : ℤ) * 20
  let success_bonus : ℤ := ((invocations.filter (fun i => i.success)).length : ℤ) * 30
  let tool_mastery_bonus : ℤ := ((invocations.flatMap (fun i => i.tools_used)).dedup.length : ℤ) * 15
  let avg_complexity : ℚ :=
    (invocations.map (fun i => i.complexity_score)).sum / (invocations.length : ℚ)
  let complexity_bonus : ℤ := pyInt (avg_complexity * 40 * (invocations.length : ℚ))
  let collaboration_bonus : ℤ :=
    ((invocations.filter (fun i => i.collaboration_agents ≠ [])).length : ℤ) * 25
  let specialization_bonus := calculateSpecializationBonus agent_name invocations
  let consistency_bonus := calculateConsistencyBonus invocations
  let total_xp := base_xp + success_bonus + tool_mastery_bonus +
    complexity_bonus + collaboration_bonus + specialization_bonus + consistency_bonus
  { agent_name := agent_name
    base_xp := base_xp
    success_bonus := success_bonus
    tool_mastery_bonus := tool_mastery_bonus
    complexity_bonus := complexity_bonus
    collaboration_bonus := collaboration_bonus
    specialization_bonus := specialization_bonus
    consistency_bonus := consistency_bonus
    total_xp := total_xp
    level := calcLevelFromXP total_xp
    next_level_xp := getNextLevelXP (calcLevelFromXP total_xp) }

/-! ## Redesigned XP system (`xp_system_redesign.py`) -/

/-- The per-level increment of `_calculate_realistic_thresholds` (the body
of whichever tier loop level `l` falls in, `2 ≤ l ≤ 300`). -/
def thresholdIncrement (l : ℕ) : ℕ :=
  if l ≤ 10 then 200 + (l - 2) * 150
  else if l ≤ 30 then 800 + (l - 11) * 200
  else if l ≤ 70 then 2000 + (l - 31) * 300
  else if l ≤ 120 then 8000 + (l - 71) * 500
  else if l ≤ 200 then 15000 + (l - 121) * 1000
  else 30000 + (l - 201) * 2000

/-- Method `_calculate_realistic_thresholds`: `[0]` followed by the running
sums of the increments for levels 2..300 (the Python loop accumulates
`base_xp` and appends once per level). -/
def levelThresholds : List ℕ :=
  0 :: (List.range' 2 299).map (fun l => ((List.range' 2 (l - 1)).map thresholdIncrement).sum)

/-- The `enumerate` loop of `get_level_from_xp`, carrying the index. -/
def levelScan (xp : ℤ) : ℕ → List ℕ → ℕ
  | i, [] => i
  | i, t :: rest => if xp < (t : ℤ) then i else levelScan xp (i + 1) rest

/-- Method `get_level_from_xp`: the first index whose threshold exceeds the
XP, else the table length. -/
def getLevelFromXP (xp : ℤ) : ℕ := levelScan xp 0 levelThresholds

/-- The token-sub-dict of a session (`session_data["tokens"]`). -/
structure SessionTokens where
  input : ℕ
  output : ℕ
  cache : ℕ
deriving DecidableEq

/-- A session dict as read by `calculate_session_xp`: `none` models an
absent key; each task's entry is its optional `"complexity"` value. -/
structure SessionData where
  tokens : Option SessionTokens
  tasks : Option (List (Option String))
  tools_used : Option (List String)
  efficient_tools : Bool
  fast_completion : Bool
  zero_errors : Bool
  first_try_success : Bool
  daily_login : Bool
  streak_days : ℕ
deriving DecidableEq

/-- The `breakdown["tokens"]` record. -/
structure TokenBreakdown where
  input_xp : ℤ
  output_xp : ℤ
  cache_xp : ℤ
  total : ℤ
deriving DecidableEq

/-- The `breakdown["performance_bonus"]` record. -/
structure PerformanceBonus where
  multiplier : ℚ
  bonus_xp : ℤ
  reasons : List String
deriving DecidableEq

/-- The `breakdown` dict built by `calculate_session_xp`. -/
structure XPBreakdown where
  tokens : Option TokenBreakdown
  tasks : Option ℤ
  tools : Option ℤ
  performance_bonus : Option PerformanceBonus
  engagement : Option ℤ
deriving DecidableEq

/-- The initially empty breakdown dict. -/
def emptyBreakdown : XPBreakdown := ⟨none, none, none, none, none⟩

/-- `base_rates.get(f"{complexity}_task", 50)`: only `simple`, `medium` and
`complex` have a `<c>_task` key (the mission rate key is
`mission_completion`, so a `"mission"` complexity hits the default 50). -/
def taskComplexityXP (complexity : String) : ℤ :=
  if complexity = "simple" then 50
  else if complexity = "medium" then 200
  else if complexity = "complex" then 500
  else 50

/-- The token block of `calculate_session_xp`. -/
def stepTokens (sd : SessionData) (acc : ℤ × XPBreakdown) : ℤ × XPBreakdown :=
  match sd.tokens with
  | none => acc
  | some t =>
    let input_xp : ℤ := ((t.input / 100 : ℕ) : ℤ)
    let output_xp : ℤ := ((t.output / 50 : ℕ) : ℤ)
    let cache_xp : ℤ := ((t.cache / 200 : ℕ) : ℤ)
    let token_xp := input_xp + output_xp + cache_xp
    (acc.1 + token_xp, { acc.2 with tokens := some ⟨input_xp, output_xp, cache_xp, token_xp⟩ })

/-- The task block of `calculate_session_xp`. -/
def stepTasks (sd : SessionData) (acc : ℤ × XPBreakdown) : ℤ × XPBreakdown :=
  match sd.tasks with
  | none => acc
  | some ts =>
    let task_xp := (ts.map (fun t => taskComplexityXP (t.getD "simple"))).sum
    (acc.1 + task_xp, { acc.2 with tasks := some task_xp })

/-- The tool block of `calculate_session_xp` (combo ×1.2 when more than 3
tools, efficiency ×1.5, each truncated with `int()`). -/
def stepTools (sd : SessionData) (acc : ℤ × XPBreakdown) : ℤ × XPBreakdown :=
  match sd.tools_used with
  | none => acc
  | some tools =>
    let t0 : ℤ := (tools.length : ℤ) * 10
    let t1 : ℤ := if 3 < tools.length then pyInt ((t0 : ℚ) * (6 / 5)) else t0
    let t2 : ℤ := if sd.efficient_tools then pyInt ((t1 : ℚ) * (3 / 2)) else t1
    (acc.1 + t2, { acc.2 with tools := some t2 })

/-- The sequential multiplier accumulation of `calculate_session_xp`
(`multiplier = 1.0`, then `*= 2.0`, `*= 1.5`, `*= 1.3` by flag), with the
reason strings gathered in the same order. -/
def perfMultiplierSeq (sd : SessionData) : ℚ × List String :=
  let s1 : ℚ × List String := if sd.fast_completion then (1 * 2, ["Speed Demon"]) else (1, [])
  let s2 : ℚ × List String :=
    if sd.zero_errors then (s1.1 * (3 / 2), s1.2 ++ ["Flawless Execution"]) else s1
  if sd.first_try_success then (s2.1 * (13 / 10), s2.2 ++ ["First Try Success"]) else s2

/-- The multiplier application block: only when the multiplier exceeds 1,
the running total is scaled (and the scaled-off bonus recorded). -/
def stepMultiplier (sd : SessionData) (acc : ℤ × XPBreakdown) : ℤ × XPBreakdown :=
  let m := perfMultiplierSeq sd
  if 1 < m.1 then
    (pyInt ((acc.1 : ℚ) * m.1),
     { acc.2 with performance_bonus := some ⟨m.1, pyInt ((acc.1 : ℚ) * (m.1 - 1)), m.2⟩ })
  else acc

/-- The engagement block: flat bonuses added after the multiplier. -/
def stepEngagement (sd : SessionData) (acc : ℤ × XPBreakdown) : ℤ × XPBreakdown :=
  let e1 : ℤ := if sd.daily_login then 0 + 100 else 0
  let e2 : ℤ := if 7 ≤ sd.streak_days then e1 + 1000 else e1
  let e3 : ℤ := if 30 ≤ sd.streak_days then e2 + 5000 else e2
  if 0 < e3 then (acc.1 + e3, { acc.2 with engagement := some e3 }) else acc

/-- Method `calculate_session_xp`, as the composition of its blocks in
source order. -/
def calculateSessionXP (sd : SessionData) : ℤ × XPBreakdown :=
  stepEngagement sd (stepMultiplier sd (stepTools sd (stepTasks sd (stepTokens sd (0, emptyBreakdown)))))

/-! Claim-side closed forms for `calculate_session_xp` (C4). -/

/-- Token XP of a session, as an independent closed form. -/
def tokenXPOf (sd : SessionData) : ℤ :=
  match sd.tokens with
  | none => 0
  | some t => ((t.input / 100 : ℕ) : ℤ) + ((t.output / 50 : ℕ) : ℤ) + ((t.cache / 200 : ℕ) : ℤ)

/-- Task XP of a session, as an independent closed form. -/
def taskXPOf (sd : SessionData) : ℤ :=
  match sd.tasks with
  | none => 0
  | some ts => (ts.map (fun t => taskComplexityXP (t.getD "simple"))).sum

/-- Tool XP of a session, as an independent closed form. -/
def toolXPOf (sd : SessionData) : ℤ :=
  match sd.tools_used with
  | none => 0
  | some tools =>
    let t0 : ℤ := (tools.length : ℤ) * 10
    let t1 : ℤ := if 3 < tools.length then pyInt ((t0 : ℚ) * (6 / 5)) else t0
    if sd.efficient_tools then pyInt ((t1 : ℚ) * (3 / 2)) else t1

/-- The subtotal the performance multiplier applies to. -/
def subtotalOf (sd : SessionData) : ℤ := tokenXPOf sd + taskXPOf sd + toolXPOf sd

/-- The performance multiplier as a product of the three flag factors. -/
def perfMultiplierOf (sd : SessionData) : ℚ :=
  (if sd.fast_completion then (2 : ℚ) else 1) *
    (if sd.zero_errors then (3 / 2 : ℚ) else 1) *
    (if sd.first_try_success then (13 / 10 : ℚ) else 1)

/-- The flat engagement bonus (streak bonuses stack). -/
def engagementOf (sd : SessionData) : ℤ :=
  (if sd.daily_login then (100 : ℤ) else 0) +
    (if 7 ≤ sd.streak_days then (1000 : ℤ) else 0) +
    (if 30 ≤ sd.streak_days then (5000 : ℤ) else 0)

/-! ## Concrete data used by witnesses and counterexamples -/

/-- Every agent name occurring in some `specialization_categories` member
list (used to bound the number of categories per agent). -/
def allCatalogAgents : List String :=
  ["python-elite", "python-pro", "data-engineer", "ai-engineer", "ml-engineer",
   "javascript-pro", "frontend-developer", "full-stack-architect",
   "backend-architect", "golang-pro", "rust-pro", "sql-pro",
   "devops-engineer", "cloud-architect", "deployment-engineer", "incident-commander",
   "test-engineer", "code-reviewer", "performance-engineer", "quality-engineer",
   "security-auditor", "data-ai-ml-engineer",
   "business-analyst", "content-marketer", "user-feedback-analyst",
   "api-documenter", "dx-optimizer", "tech-portfolio-resume-review-specialist"]

/-- A fresh invocation record as `_extract_agent_invocations_from_entries`
would create it (collaboration empty, bonuses zero). -/
def mkInv (name sid : String) (ts : ℚ) (succ : Bool) : AgentInvocation :=
  { agent_name := name
    session_id := sid
    timestamp := ts
    project_path := "/tmp/demo"
    task_description := ""
    tools_used := []
    success := succ
    error_message := none
    duration_seconds := 0
    tokens_used := 0
    model := ""
    git_branch := ""
    collaboration_agents := []
    specialization_bonus := 0
    collaboration_bonus := 0
    complexity_score := 0 }

/-- Placeholder formation for total `headD` projections. -/
def dummyFormation : SquadFormation :=
  { session_id := "", agents := [], start_time := 0, end_time := 0, project_path := "",
    total_tasks := 0, success_rate := 0, synergy_score := 0, formation_type := "" }

/-- Placeholder invocation for total `headD` projections. -/
def dummyInvocation : AgentInvocation := mkInv "" "" 0 true

/-- Two collaborating agents in one session: `data-engineer` belongs to two
specialization categories (`python` and `data`), `security-auditor` to one. -/
def exC2 : List AgentInvocation :=
  [mkInv "data-engineer" "s1" 0 true, mkInv "security-auditor" "s1" 0 true]

/-- The single formation the analyzer produces for `exC2`. -/
def exC2Formation : SquadFormation := (detectSquadFormations exC2).headD dummyFormation

/-- One session whose second agent appears in two invocations. -/
def exC3a : AgentInvocation := mkInv "python-pro" "s1" 0 true

/-- Second invocation of the `exC3` session. -/
def exC3b : AgentInvocation := mkInv "backend-architect" "s1" 0 true

/-- A session in which `backend-architect` is invoked twice. -/
def exC3 : List AgentInvocation := [exC3a, exC3b, exC3b]

/-- A single log entry whose own message text contains "failed". -/
def mkUserEntry (content : String) : LogEntry :=
  { type := "user"
    timestamp := some 0
    sessionId := some "s1"
    message := some
      { content := ContentVal.ofStr content, contentRepr := content, usage := none, model := none }
    gitBranch := none
    toolUseResult := none }

/-- Entry list for the C5 counterexample: the only entry mentions a failure
in its own text, and there are no subsequent entries at all. -/
def exC5 : List LogEntry := [mkUserEntry "the build failed"]

/-- A two-agent session used to exercise squad-formation theorems. -/
def exSquad : List AgentInvocation :=
  [mkInv "python-pro" "s1" 0 true, mkInv "devops-engineer" "s1" 0 true]

/-- The single formation the analyzer produces for `exSquad`. -/
def exSquadFormation : SquadFormation := (detectSquadFormations exSquad).headD dummyFormation

/-- Session whose invocation order (by timestamp) is not alphabetical. -/
def exC8 : List AgentInvocation :=
  [mkInv "test-engineer" "s1" 0 true, mkInv "backend-architect" "s1" 100 true]

/-- A session dict with every multiplier flag and engagement bonus set. -/
def exC4 : SessionData :=
  { tokens := some { input := 1000, output := 500, cache := 400 }
    tasks := some [some "complex", some "medium"]
    tools_used := some ["Grep", "Edit", "MultiEdit", "Bash", "Write"]
    efficient_tools := true
    fast_completion := true
    zero_errors := true
    first_try_success := true
    daily_login := true
    streak_days := 30 }

/-- A detector that always reports one agent (the theorems hold for any
detector, so the witness may pick a trivial one). -/
def detectOne : String → List String := fun _ => ["python-pro"]

/-- A user-type entry with nonempty text content. -/
def exC10Entry : LogEntry := mkUserEntry "please call the helper"

/-- Entry list for the C10 witness. -/
def exC10Entries : List LogEntry := [exC10Entry]

/-- The invocation extracted from `exC10Entries` by `detectOne`. -/
def exC10Out : AgentInvocation :=
  (invocationsFromEntry detectOne exC10Entries "/tmp/p" 0).headD dummyInvocation

/-- A single invocation of `python-pro` (C1 witness input). -/
def exC1 : List AgentInvocation := [mkInv "python-pro" "s1" 0 true]

/-! # Theorems -/

/-- The defaulted head of a nonempty list is a member. -/
theorem mem_headD_of_ne_nil {α : Type} (l : List α) (d : α) (h : l ≠ []) : l.headD d ∈ l := by
  cases l with
  | nil => exact absurd rfl h
  | cons a t => exact List.mem_cons_self a t

/-- C1: for every per-agent XP computation on a non-empty invocation list,
`total_xp` equals exactly the sum of `base_xp`, `success_bonus`,
`tool_mastery_bonus`, `complexity_bonus`, `collaboration_bonus`,
`specialization_bonus` and `consistency_bonus`. -/
theorem c1_total_xp_additivity (agent_name : String) (invocations : List AgentInvocation)
    (_h : invocations ≠ []) :
    (calcIndividualAgentXP agent_name invocations).total_xp =
      (calcIndividualAgentXP agent_name invocations).base_xp +
        (calcIndividualAgentXP agent_name invocations).success_bonus +
        (calcIndividualAgentXP agent_name invocations).tool_mastery_bonus +
        (calcIndividualAgentXP agent_name invocations).complexity_bonus +
        (calcIndividualAgentXP agent_name invocations).collaboration_bonus +
        (calcIndividualAgentXP agent_name invocations).specialization_bonus +
        (calcIndividualAgentXP agent_name invocations).consistency_bonus := rfl

/-- Witness for C1 at a concrete one-invocation list. -/
theorem c1_total_xp_additivity_witness :
    exC1 ≠ [] ∧
      (calcIndividualAgentXP "python-pro" exC1).total_xp =
        (calcIndividualAgentXP "python-pro" exC1).base_xp +
          (calcIndividualAgentXP "python-pro" exC1).success_bonus +
          (calcIndividualAgentXP "python-pro" exC1).tool_mastery_bonus +
          (calcIndividualAgentXP "python-pro" exC1).complexity_bonus +
          (calcIndividualAgentXP "python-pro" exC1).collaboration_bonus +
          (calcIndividualAgentXP "python-pro" exC1).specialization_bonus +
          (calcIndividualAgentXP "python-pro" exC1).consistency_bonus :=
  ⟨by decide, c1_total_xp_additivity "python-pro" exC1 (by decide)⟩

/-- C9: the collaboration backfill pass changes only `collaboration_agents`:
the list keeps its length and order, and zeroing that one field makes the
pass the identity, so every other field of every invocation is unchanged. -/
theorem c9_backfill_frame (invs : List AgentInvocation) :
    (addCollaborationContext invs).length = invs.length ∧
      (addCollaborationContext invs).map (fun i => { i with collaboration_agents := [] }) =
        invs.map (fun i => { i with collaboration_agents := [] }) := by
  constructor
  · simp [addCollaborationContext]
  · unfold addCollaborationContext
    rw [List.map_map]
    apply List.map_congr_left
    intro inv _
    by_cases h : 1 < (sessionInvocations invs inv.session_id).length
    · simp [Function.comp, h]
    · simp [Function.comp, h]

/-- Any start index bounds `levelScan` from below. -/
theorem levelScan_ge (xp : ℤ) : ∀ (ts : List ℕ) (i : ℕ), i ≤ levelScan xp i ts := by
  intro ts
  induction ts with
  | nil => intro i; exact le_refl i
  | cons t rest ih =>
    intro i
    simp only [levelScan]
    split
    · exact le_refl i
    · exact le_trans (Nat.le_succ i) (ih (i + 1))

/-- The enumerate-scan of `get_level_from_xp` is monotone in the XP for any
threshold table. -/
theorem levelScan_mono {x1 x2 : ℤ} (h : x1 ≤ x2) :
    ∀ (ts : List ℕ) (i : ℕ), levelScan x1 i ts ≤ levelScan x2 i ts := by
  intro ts
  induction ts with
  | nil => intro i; exact le_refl i
  | cons t rest ih =>
    intro i
    by_cases h1 : x1 < (t : ℤ)
    · by_cases h2 : x2 < (t : ℤ)
      · simp only [levelScan, if_pos h1, if_pos h2]
        exact le_refl i
      · simp only [levelScan, if_pos h1, if_neg h2]
        exact le_trans (Nat.le_succ i) (levelScan_ge x2 rest (i + 1))
    · have h2 : ¬ x2 < (t : ℤ) := fun hc => h1 (lt_of_le_of_lt h hc)
      simp only [levelScan, if_neg h1, if_neg h2]
      exact ih (i + 1)

/-- The reversed analyzer level table, computed. -/
theorem xpLevels_reverse_eq :
    xpLevels.reverse =
      [(10000, 10), (6000, 9), (4000, 8), (2500, 7), (1500, 6),
       (1000, 5), (600, 4), (300, 3), (100, 2), (0, 1)] := by decide

/-- The reversed-table scan never exceeds a bound dominating every level in
the table (and the default level 1). -/
theorem levelLookupRev_le (l : List (ℕ × ℕ)) (b : ℕ) (hb : 1 ≤ b)
    (hl : ∀ p ∈ l, p.2 ≤ b) (x : ℤ) : levelLookupRev l x ≤ b := by
  induction l with
  | nil => exact hb
  | cons p rest ih =>
    obtain ⟨t, lv⟩ := p
    simp only [levelLookupRev]
    split_ifs
    · exact hl (t, lv) (List.mem_cons_self _ _)
    · exact ih (fun q hq => hl q (List.mem_cons_of_mem _ hq))

/-- The reversed-table scan is monotone whenever the level entries decrease
along the list and stay at least 1. -/
theorem levelLookupRev_mono (l : List (ℕ × ℕ))
    (hp : l.Pairwise (fun p q => q.2 ≤ p.2)) (h1 : ∀ p ∈ l, 1 ≤ p.2)
    {x1 x2 : ℤ} (h : x1 ≤ x2) : levelLookupRev l x1 ≤ levelLookupRev l x2 := by
  induction l with
  | nil => exact le_refl 1
  | cons p rest ih =>
    obtain ⟨t, lv⟩ := p
    rw [List.pairwise_cons] at hp
    by_cases ha : (t : ℤ) ≤ x1
    · have hb : (t : ℤ) ≤ x2 := le_trans ha h
      simp only [levelLookupRev, if_pos ha, if_pos hb]
      exact le_refl lv
    · by_cases hb : (t : ℤ) ≤ x2
      · simp only [levelLookupRev, if_neg ha, if_pos hb]
        exact levelLookupRev_le rest lv
          (h1 (t, lv) (List.mem_cons_self _ _))
          (fun q hq => hp.1 q hq) x1
      · simp only [levelLookupRev, if_neg ha, if_neg hb]
        exact ih hp.2 (fun q hq => h1 q (List.mem_cons_of_mem _ hq))

/-- The analyzer's `_calculate_level_from_xp` is monotone. -/
theorem calcLevelFromXP_mono {x1 x2 : ℤ} (h : x1 ≤ x2) :
    calcLevelFromXP x1 ≤ calcLevelFromXP x2 := by
  unfold calcLevelFromXP
  rw [xpLevels_reverse_eq]
  exact levelLookupRev_mono _ (by decide) (by decide) h

/-- C6: level-from-XP lookup is monotone, for both the analyzer's 10-level
table and the redesigned threshold table. -/
theorem c6_level_monotonicity (x1 x2 : ℤ) (_h0 : 0 ≤ x1) (h : x1 < x2) :
    calcLevelFromXP x1 ≤ calcLevelFromXP x2 ∧ getLevelFromXP x1 ≤ getLevelFromXP x2 :=
  ⟨calcLevelFromXP_mono (le_of_lt h), levelScan_mono (le_of_lt h) levelThresholds 0⟩

/-- Witness for C6 at the pair 0 < 150. -/
theorem c6_level_monotonicity_witness :
    ((0 : ℤ) ≤ 0 ∧ (0 : ℤ) < 150) ∧
      (calcLevelFromXP 0 ≤ calcLevelFromXP 150 ∧ getLevelFromXP 0 ≤ getLevelFromXP 150) :=
  ⟨⟨by decide, by decide⟩, c6_level_monotonicity 0 150 (by decide) (by decide)⟩

/-- The boolean error marker unpacked into a proposition. -/
theorem entryHasErrorMarker_iff (e : LogEntry) :
    entryHasErrorMarker e = true ↔
      e.toolUseResult = some "Error" ∨
        (extractMessageContent e ≠ "" ∧
          (strContains (lowerStr (extractMessageContent e)) "error" = true ∨
            strContains (lowerStr (extractMessageContent e)) "failed" = true)) := by
  simp [entryHasErrorMarker, Bool.or_eq_true, Bool.and_eq_true, beq_iff_eq, bne_iff_ne]

/-- The success scan reports failure exactly when some entry of the scanned
window carries an error marker. -/
theorem scanWindow_false_iff : ∀ l : List LogEntry,
    ((scanWindow l).1 = false ↔ ∃ e ∈ l, entryHasErrorMarker e = true) := by
  intro l
  induction l with
  | nil => simp [scanWindow]
  | cons e rest ih =>
    simp only [scanWindow]
    split_ifs with h1 h2
    · constructor
      · intro _
        exact ⟨e, List.mem_cons_self e rest, (entryHasErrorMarker_iff e).mpr (Or.inl h1)⟩
      · intro _; rfl
    · constructor
      · intro _
        exact ⟨e, List.mem_cons_self e rest, (entryHasErrorMarker_iff e).mpr (Or.inr h2)⟩
      · intro _; rfl
    · rw [ih]
      constructor
      · rintro ⟨x, hx, hmark⟩
        exact ⟨x, List.mem_cons_of_mem e hx, hmark⟩
      · rintro ⟨x, hx, hmark⟩
        rcases List.mem_cons.mp hx with rfl | hx'
        · rcases (entryHasErrorMarker_iff x).mp hmark with hc | hc
          · exact absurd hc h1
          · exact absurd hc h2
        · exact ⟨x, hx', hmark⟩

/-- When the scan reports success it carries no error message. -/
theorem scanWindow_true_none : ∀ l : List LogEntry,
    (scanWindow l).1 = true → (scanWindow l).2 = none := by
  intro l
  induction l with
  | nil => intro _; rfl
  | cons e rest ih =>
    simp only [scanWindow]
    split_ifs
    · intro hc; exact absurd hc (by simp)
    · intro hc; exact absurd hc (by simp)
    · exact ih

/-- C5 (amended): `_determine_task_success` scans the window of five entries
starting at the invocation's own entry (the entry itself plus up to four
subsequent ones): it reports failure exactly when some entry of that window
has a `toolUseResult == "Error"` marker or the substrings "error"/"failed"
in its nonempty message text, and when it reports success the error message
is `None`. -/
theorem c5_success_window (entries : List LogEntry) (i : ℕ) :
    ((determineTaskSuccess entries i).1 = false ↔
        ∃ e ∈ (entries.drop i).take 5, entryHasErrorMarker e = true) ∧
      ((determineTaskSuccess entries i).1 = false ∨ (determineTaskSuccess entries i).2 = none) := by
  constructor
  · exact scanWindow_false_iff _
  · cases hb : (determineTaskSuccess entries i).1 with
    | false => exact Or.inl rfl
    | true => exact Or.inr (scanWindow_true_none _ hb)

/-- C5 counterexample: on a log whose only entry itself contains "failed"
(and which has no subsequent entries at all), the code reports failure,
while a scan restricted to subsequent entries — as the claim words it —
would report success. -/
theorem c5_counterexample :
    (determineTaskSuccess exC5 0).1 = false ∧ (specDetermineTaskSuccess exC5 0).1 = true :=
  ⟨by decide, by decide⟩

/-- C3 counterexample: in a session where `backend-architect` is invoked
twice, the `python-pro` invocation's collaboration list contains
`backend-architect` twice — the backfill does not deduplicate. -/
theorem c3_counterexample :
    (addCollaborationContext exC3).map (fun i => i.collaboration_agents) =
        [["backend-architect", "backend-architect"], ["python-pro"], ["python-pro"]] ∧
      ¬ (["backend-architect", "backend-architect"] : List String).Nodup :=
  ⟨by decide, by decide⟩

/-- C3 (amended): after the backfill pass, an invocation of a session with
at least two invocations carries the session's agent-name list with every
occurrence of its own name removed — one entry per other invocation, so
duplicates appear when another agent is invoked twice, though as a set it
is exactly the set of other agents' names; invocations of single-invocation
sessions are unchanged (hence keep the empty set they were created with). -/
theorem c3_collaboration (invs : List AgentInvocation) (k : ℕ) (inv : AgentInvocation)
    (h : invs[k]? = some inv) :
    ∃ out, (addCollaborationContext invs)[k]? = some out ∧
      (1 < (sessionInvocations invs inv.session_id).length →
        out.collaboration_agents =
          ((sessionInvocations invs inv.session_id).map (fun j => j.agent_name)).filter
            (fun n => n ≠ inv.agent_name)) ∧
      ((sessionInvocations invs inv.session_id).length ≤ 1 → out = inv) ∧
      (∀ a : String,
        (a ∈ ((sessionInvocations invs inv.session_id).map (fun j => j.agent_name)).filter
            (fun n => n ≠ inv.agent_name)) ↔
          (a ≠ inv.agent_name ∧ ∃ j ∈ sessionInvocations invs inv.session_id, j.agent_name = a)) := by
  refine ⟨if 1 < (sessionInvocations invs inv.session_id).length then { inv with collaboration_agents := ((sessionInvocations invs inv.session_id).map (fun j => j.agent_name)).filter (fun n => n ≠ inv.agent_name) } else inv, ?_, ?_, ?_, ?_⟩
  · unfold addCollaborationContext
    rw [List.getElem?_map, h]
    rfl
  · intro hlen
    rw [if_pos hlen]
  · intro hle
    rw [if_neg (by omega)]
  · intro a
    simp only [List.mem_filter, List.mem_map, decide_eq_true_eq]
    constructor
    · rintro ⟨⟨j, hj, rfl⟩, hne⟩
      exact ⟨hne, j, hj, rfl⟩
    · rintro ⟨hne, j, hj, rfl⟩
      exact ⟨⟨j, hj, rfl⟩, hne⟩

/-- Witness for C3 (amended) at the concrete session `exC3`, index 0. -/
theorem c3_collaboration_witness :
    ∃ out, (addCollaborationContext exC3)[0]? = some out ∧
      (1 < (sessionInvocations exC3 exC3a.session_id).length →
        out.collaboration_agents =
          ((sessionInvocations exC3 exC3a.session_id).map (fun j => j.agent_name)).filter
            (fun n => n ≠ exC3a.agent_name)) ∧
      ((sessionInvocations exC3 exC3a.session_id).length ≤ 1 → out = exC3a) ∧
      (∀ a : String,
        (a ∈ ((sessionInvocations exC3 exC3a.session_id).map (fun j => j.agent_name)).filter
            (fun n => n ≠ exC3a.agent_name)) ↔
          (a ≠ exC3a.agent_name ∧ ∃ j ∈ sessionInvocations exC3 exC3a.session_id, j.agent_name = a)) :=
  c3_collaboration exC3 0 exC3a rfl

/-- C10: every invocation created from a user-type entry has an empty tool
list, zero token count and an empty model string, because tool, token and
model extraction only inspect entries of type "assistant".  The theorem
holds for every agent-name detector. -/
theorem c10_user_entry_side_channels (detect : String → List String) (entries : List LogEntry)
    (pp : String) (i : ℕ) (entry : LogEntry) (h : entries.get? i = some entry)
    (htype : entry.type = "user") :
    ∀ inv ∈ invocationsFromEntry detect entries pp i,
      inv.tools_used = [] ∧ inv.tokens_used = 0 ∧ inv.model = "" := by
  intro inv hmem
  have hne : ¬ entry.type = "assistant" := by
    rw [htype]; intro hc; exact absurd hc (by decide)
  have htools : extractToolsFromEntry entry = [] := by
    unfold extractToolsFromEntry
    cases hm : entry.message with
    | none => rfl
    | some m => simp [hne]
  have htokens : extractTokenUsage entry = 0 := by
    unfold extractTokenUsage
    cases hm : entry.message with
    | none => rfl
    | some m => simp [hne]
  have hmodel : extractModelInfo entry = "" := by
    unfold extractModelInfo
    cases hm : entry.message with
    | none => rfl
    | some m => simp [hne]
  unfold invocationsFromEntry at hmem
  simp only [h] at hmem
  rw [if_pos (Or.inl htype)] at hmem
  cases ht : entry.timestamp with
  | none => simp only [ht] at hmem; exact absurd hmem (List.not_mem_nil inv)
  | some ts =>
    simp only [ht] at hmem
    by_cases hc : extractMessageContent entry = ""
    · rw [if_pos hc] at hmem
      exact absurd hmem (List.not_mem_nil inv)
    · rw [if_neg hc] at hmem
      obtain ⟨name, _, rfl⟩ := List.mem_map.mp hmem
      exact ⟨htools, htokens, hmodel⟩

/-- Witness for C10 at a concrete user entry and trivial detector. -/
theorem c10_user_entry_side_channels_witness :
    exC10Out.tools_used = [] ∧ exC10Out.tokens_used = 0 ∧ exC10Out.model = "" :=
  c10_user_entry_side_channels detectOne exC10Entries "/tmp/p" 0 exC10Entry rfl rfl exC10Out
    (mem_headD_of_ne_nil _ _ (by decide))

/-- The sequentially accumulated multiplier equals the product of the three
flag factors. -/
theorem perfMultiplierSeq_fst (sd : SessionData) :
    (perfMultiplierSeq sd).1 = perfMultiplierOf sd := by
  unfold perfMultiplierSeq perfMultiplierOf
  cases hf : sd.fast_completion <;> cases hz : sd.zero_errors <;>
    cases ht : sd.first_try_success <;> simp

/-- After the token, task and tool blocks the running total is the
subtotal. -/
theorem sessionSubtotal_eq (sd : SessionData) :
    (stepTools sd (stepTasks sd (stepTokens sd (0, emptyBreakdown)))).1 = subtotalOf sd := by
  unfold stepTokens stepTasks stepTools subtotalOf tokenXPOf taskXPOf toolXPOf
  cases sd.tokens <;> cases sd.tasks <;> cases sd.tools_used <;> simp

/-- The first three blocks never record a performance bonus. -/
theorem sessionSteps_perf_none (sd : SessionData) :
    (stepTools sd (stepTasks sd (stepTokens sd (0, emptyBreakdown)))).2.performance_bonus = none := by
  unfold stepTokens stepTasks stepTools emptyBreakdown
  cases sd.tokens <;> cases sd.tasks <;> cases sd.tools_used <;> simp

/-- The multiplier block scales the running total exactly when the product
multiplier exceeds 1. -/
theorem stepMultiplier_fst (sd : SessionData) (acc : ℤ × XPBreakdown) :
    (stepMultiplier sd acc).1 =
      if 1 < perfMultiplierOf sd then pyInt ((acc.1 : ℚ) * perfMultiplierOf sd) else acc.1 := by
  simp only [stepMultiplier, perfMultiplierSeq_fst]
  split_ifs <;> rfl

/-- The multiplier block records the scaled-off bonus exactly when the
product multiplier exceeds 1. -/
theorem stepMultiplier_perf (sd : SessionData) (acc : ℤ × XPBreakdown) :
    (stepMultiplier sd acc).2.performance_bonus =
      if 1 < perfMultiplierOf sd then
        some { multiplier := perfMultiplierOf sd,
               bonus_xp := pyInt ((acc.1 : ℚ) * (perfMultiplierOf sd - 1)),
               reasons := (perfMultiplierSeq sd).2 }
      else acc.2.performance_bonus := by
  simp only [stepMultiplier, perfMultiplierSeq_fst]
  split_ifs <;> rfl

/-- The engagement block adds exactly the closed-form flat bonus. -/
theorem stepEngagement_fst (sd : SessionData) (acc : ℤ × XPBreakdown) :
    (stepEngagement sd acc).1 = acc.1 + engagementOf sd := by
  unfold stepEngagement engagementOf
  cases hd : sd.daily_login <;> by_cases h7 : 7 ≤ sd.streak_days <;>
    by_cases h30 : 30 ≤ sd.streak_days <;> simp [h7, h30]

/-- The engagement block never touches the performance-bonus record. -/
theorem stepEngagement_perf (sd : SessionData) (acc : ℤ × XPBreakdown) :
    (stepEngagement sd acc).2.performance_bonus = acc.2.performance_bonus := by
  simp only [stepEngagement]
  split_ifs <;> rfl

/-- C4: the performance multiplier of `calculate_session_xp` is the product
of 2.0, 1.5 and 1.3 over the set flags (all three giving exactly ×3.9); it
is applied only to the token+task+tool subtotal; the bonus portion
`subtotal × (multiplier − 1)` is reported separately in the breakdown; and
the flat engagement bonuses (+100 daily login, +1000 for a 7-day streak,
+5000 for a 30-day streak, stacking) are added afterwards, unmultiplied. -/
theorem c4_session_multiplier (sd : SessionData) :
    (calculateSessionXP sd).1 =
        (if 1 < perfMultiplierOf sd then pyInt ((subtotalOf sd : ℚ) * perfMultiplierOf sd)
         else subtotalOf sd) + engagementOf sd ∧
      (calculateSessionXP sd).2.performance_bonus =
        (if 1 < perfMultiplierOf sd then
          some { multiplier := perfMultiplierOf sd,
                 bonus_xp := pyInt ((subtotalOf sd : ℚ) * (perfMultiplierOf sd - 1)),
                 reasons := (perfMultiplierSeq sd).2 }
         else none) ∧
      (sd.fast_completion = true → sd.zero_errors = true → sd.first_try_success = true →
        perfMultiplierOf sd = 39 / 10) ∧
      engagementOf sd =
        (if sd.daily_login then (100 : ℤ) else 0) +
          (if 7 ≤ sd.streak_days then (1000 : ℤ) else 0) +
          (if 30 ≤ sd.streak_days then (5000 : ℤ) else 0) := by
  have hsub := sessionSubtotal_eq sd
  have hperf := sessionSteps_perf_none sd
  refine ⟨?_, ?_, ?_, rfl⟩
  · unfold calculateSessionXP
    rw [stepEngagement_fst, stepMultiplier_fst, hsub]
  · unfold calculateSessionXP
    rw [stepEngagement_perf, stepMultiplier_perf, hperf, hsub]
  · intro hf hz ht
    unfold perfMultiplierOf
    rw [hf, hz, ht]
    norm_num

/-- Witness for C4 at a session with all three flags set: the multiplier is
exactly 39/10. -/
theorem c4_session_multiplier_witness :
    exC4.fast_completion = true ∧ exC4.zero_errors = true ∧ exC4.first_try_success = true ∧
      perfMultiplierOf exC4 = 39 / 10 :=
  ⟨rfl, rfl, rfl, (c4_session_multiplier exC4).2.2.1 rfl rfl rfl⟩

/-- Every formation in the output arises from `formationOfSession`. -/
theorem mem_detectSquadFormations {invs : List AgentInvocation} {f : SquadFormation}
    (h : f ∈ detectSquadFormations invs) : ∃ sid, formationOfSession invs sid = some f := by
  unfold detectSquadFormations at h
  obtain ⟨sid, _, hf⟩ := List.mem_filterMap.mp h
  exact ⟨sid, hf⟩

/-- Inversion of a successful `formationOfSession`: the guards hold and the
interesting fields are as constructed. -/
theorem formationOfSession_some {invs : List AgentInvocation} {sid : String} {f : SquadFormation}
    (h : formationOfSession invs sid = some f) :
    2 ≤ (sessionInvocations invs sid).length ∧
      f.session_id = sid ∧
      f.agents = sessionAgents invs sid ∧
      2 ≤ (sessionAgents invs sid).length ∧
      f.synergy_score = calcSynergyScore (sessionAgents invs sid) (sortedSession invs sid) ∧
      f.success_rate =
        (if 0 < (sortedSession invs sid).length then
          (((sortedSession invs sid).filter (fun i => i.success)).length : ℚ) /
            ((sortedSession invs sid).length : ℚ)
        else 0) := by
  unfold formationOfSession at h
  by_cases h1 : (sessionInvocations invs sid).length < 2
  · rw [if_pos h1] at h
    exact Option.noConfusion h
  · rw [if_neg h1] at h
    by_cases h2 : (sessionAgents invs sid).length < 2
    · rw [if_pos h2] at h
      exact Option.noConfusion h
    · rw [if_neg h2] at h
      have hf := Option.some.inj h
      subst hf
      exact ⟨by omega, rfl, rfl, by omega, rfl, rfl⟩

/-- Membership in a member list of the category table implies membership in
the flat catalog of agent names. -/
theorem mem_allCatalog_of_mem_cat {name : String} {p : String × List String}
    (hp : p ∈ specializationCategories) (h : name ∈ p.2) : name ∈ allCatalogAgents := by
  fin_cases hp <;> simp_all [allCatalogAgents] <;> tauto

/-- An agent outside the catalog belongs to no category. -/
theorem catsOfAgent_eq_nil {name : String} (h : name ∉ allCatalogAgents) :
    catsOfAgent name = [] := by
  unfold catsOfAgent
  rw [List.map_eq_nil_iff, List.filter_eq_nil_iff]
  intro p hp
  simp only [decide_eq_true_eq]
  intro hmem
  exact h (mem_allCatalog_of_mem_cat hp hmem)

/-- Every agent belongs to at most two specialization categories. -/
theorem catsOfAgent_length_le (name : String) : (catsOfAgent name).length ≤ 2 := by
  by_cases h : name ∈ allCatalogAgents
  · fin_cases h <;> decide
  · rw [catsOfAgent_eq_nil h]
    decide

/-- Length of a `flatMap` as a sum of lengths. -/
theorem length_flatMap_eq {α β : Type} (f : α → List β) :
    ∀ l : List α, (l.flatMap f).length = (l.map (fun a => (f a).length)).sum := by
  intro l
  induction l with
  | nil => rfl
  | cons a t ih => simp [List.flatMap_cons, List.length_append, ih]

/-- The deduplicated category pool of an agent list has at most twice as
many entries as the list. -/
theorem dedup_flatMap_cats_le (agents : List String) :
    ((agents.flatMap catsOfAgent).dedup).length ≤ 2 * agents.length := by
  have h1 : ((agents.flatMap catsOfAgent).dedup).length ≤ (agents.flatMap catsOfAgent).length :=
    (List.dedup_sublist _).length_le
  have h2 : (agents.flatMap catsOfAgent).length =
      (agents.map (fun a => (catsOfAgent a).length)).sum := length_flatMap_eq _ agents
  have h3 : (agents.map (fun a => (catsOfAgent a).length)).sum ≤
      (agents.map (fun a => (catsOfAgent a).length)).length • 2 := by
    refine List.sum_le_card_nsmul _ 2 ?_
    intro x hx
    obtain ⟨a, _, rfl⟩ := List.mem_map.mp hx
    exact catsOfAgent_length_le a
  rw [List.length_map, smul_eq_mul] at h3
  omega

/-- Consecutive gaps of a sorted rational list are nonnegative. -/
theorem gapsOf_nonneg : ∀ l : List ℚ, List.Sorted (fun a b : ℚ => a ≤ b) l →
    ∀ x ∈ gapsOf l, 0 ≤ x := by
  intro l
  induction l with
  | nil => intro _ x hx; simp [gapsOf] at hx
  | cons a t ih =>
    intro hs x hx
    cases t with
    | nil => simp [gapsOf] at hx
    | cons b t' =>
      simp only [gapsOf, List.mem_cons] at hx
      rcases hx with rfl | hx'
      · have hab : a ≤ b := List.rel_of_sorted_cons hs b (List.mem_cons_self b t')
        linarith
      · exact ih hs.tail x hx'

/-- A count-over-count ratio is in the unit interval. -/
theorem ratio_bounds (k n : ℕ) (hkn : k ≤ n) : 0 ≤ (k : ℚ) / n ∧ (k : ℚ) / n ≤ 1 := by
  constructor
  · positivity
  · rcases Nat.eq_zero_or_pos n with rfl | hn
    · simp
    · rw [div_le_one (show (0 : ℚ) < n by exact_mod_cast hn)]
      exact_mod_cast hkn

/-- The synergy score is nonnegative and at most 4/3: the diversity
component is bounded by 2 (each agent lies in at most two categories), the
other two components by 1. -/
theorem calcSynergyScore_bounds (agents : List String) (invocations : List AgentInvocation) :
    0 ≤ calcSynergyScore agents invocations ∧ calcSynergyScore agents invocations ≤ 4 / 3 := by
  simp only [calcSynergyScore]
  by_cases hlen : agents.length < 2
  · simp only [if_pos hlen]
    norm_num
  · simp only [if_neg hlen]
    set ts := List.insertionSort (fun a b : ℚ => a ≤ b) (invocations.map (fun i => i.timestamp))
      with hts
    set avg : ℚ :=
      (if (gapsOf ts).length ≠ 0 then (gapsOf ts).sum / ((gapsOf ts).length : ℚ) else 0) with havg
    have hlen2 : 2 ≤ agents.length := by omega
    have hapos : (0 : ℚ) < (agents.length : ℚ) := by
      exact_mod_cast (by omega : 0 < agents.length)
    have hs0 : (0 : ℚ) ≤ ((agents.flatMap catsOfAgent).dedup.length : ℚ) / (agents.length : ℚ) := by
      positivity
    have hs2 : ((agents.flatMap catsOfAgent).dedup.length : ℚ) / (agents.length : ℚ) ≤ 2 := by
      rw [div_le_iff₀ hapos]
      calc ((agents.flatMap catsOfAgent).dedup.length : ℚ)
          ≤ ((2 * agents.length : ℕ) : ℚ) := by exact_mod_cast dedup_flatMap_cats_le agents
        _ = 2 * (agents.length : ℚ) := by push_cast; ring
    obtain ⟨hr0, hr1⟩ := ratio_bounds ((invocations.filter (fun i => i.success)).length)
      invocations.length (List.length_filter_le _ _)
    have hsort : List.Sorted (fun a b : ℚ => a ≤ b) ts := by
      rw [hts]
      exact List.sorted_insertionSort _ _
    have hgap : (0 : ℚ) ≤ avg := by
      rw [havg]
      split_ifs
      · exact div_nonneg (List.sum_nonneg (gapsOf_nonneg _ hsort)) (by positivity)
      · exact le_refl 0
    have hgap36 : (0 : ℚ) ≤ avg / 3600 := div_nonneg hgap (by norm_num)
    have hc0 : (0 : ℚ) ≤ pyMax 0 (1 - avg / 3600) := by
      unfold pyMax
      split_ifs with hx
      · linarith
      · exact le_refl 0
    have hc1 : pyMax 0 (1 - avg / 3600) ≤ 1 := by
      unfold pyMax
      split_ifs with hx
      · linarith
      · norm_num
    constructor
    · apply div_nonneg ?_ (by norm_num)
      linarith
    · rw [div_le_div_iff₀ (by norm_num) (by norm_num)]
      linarith

/-- C2 counterexample: for the session {data-engineer, security-auditor}
the produced formation's synergy score is 7/6 > 1 — the specialization
diversity component is 3/2 because `data-engineer` belongs to two
categories, so neither that component nor the total stays within [0, 1]. -/
theorem c2_counterexample :
    (detectSquadFormations exC2).map (fun f => f.synergy_score) = [7 / 6] ∧
      ¬ ((7 : ℚ) / 6 ≤ 1) := by
  constructor
  · have hd : (["data-engineer", "security-auditor"] : List String).dedup =
        ["data-engineer", "security-auditor"] := by decide
    have hc : ((catsOfAgent "data-engineer" ++ catsOfAgent "security-auditor").dedup).length = 3 := by
      decide
    norm_num [detectSquadFormations, formationOfSession, sessionInvocations, sortedSession,
      sessionAgents, calcSynergyScore, gapsOf, pyMax,
      exC2, mkInv, List.insertionSort, List.orderedInsert,
      List.filterMap_cons, List.filterMap_nil, List.filter_cons, List.filter_nil, hd, hc]
  · norm_num

/-- C2 (amended): every formation's synergy score lies in [0, 4/3] — the
success-rate and temporal-coordination components lie in [0, 1], while the
specialization-diversity component is only bounded by 2 since an agent may
belong to two categories; the formation's success rate lies in [0, 1]. -/
theorem c2_synergy_bounds (invs : List AgentInvocation) (f : SquadFormation)
    (hf : f ∈ detectSquadFormations invs) :
    (0 ≤ f.synergy_score ∧ f.synergy_score ≤ 4 / 3) ∧
      (0 ≤ f.success_rate ∧ f.success_rate ≤ 1) := by
  obtain ⟨sid, h⟩ := mem_detectSquadFormations hf
  obtain ⟨_, _, _, _, hsyn, hsucc⟩ := formationOfSession_some h
  constructor
  · rw [hsyn]
    exact calcSynergyScore_bounds _ _
  · rw [hsucc]
    split_ifs with h0
    · exact ratio_bounds _ _ (List.length_filter_le _ _)
    · norm_num

/-- Witness for C2 (amended) at the concrete session `exSquad`. -/
theorem c2_synergy_bounds_witness :
    (0 ≤ exSquadFormation.synergy_score ∧ exSquadFormation.synergy_score ≤ 4 / 3) ∧
      (0 ≤ exSquadFormation.success_rate ∧ exSquadFormation.success_rate ≤ 1) :=
  c2_synergy_bounds exSquad exSquadFormation (mem_headD_of_ne_nil _ _ (by decide))

/-- C7: every emitted squad formation has a deduplicated agent list of at
least two names, and its session indeed has at least two distinct agent
names — no formation is produced for a session with fewer. -/
theorem c7_formation_minimum (invs : List AgentInvocation) (f : SquadFormation)
    (hf : f ∈ detectSquadFormations invs) :
    2 ≤ f.agents.length ∧ f.agents.Nodup ∧
      2 ≤ (((sessionInvocations invs f.session_id).map (fun i => i.agent_name)).dedup).length := by
  obtain ⟨sid, h⟩ := mem_detectSquadFormations hf
  obtain ⟨_, hsid, hag, h2, _, _⟩ := formationOfSession_some h
  subst hsid
  refine ⟨?_, ?_, ?_⟩
  · rw [hag]
    exact h2
  · rw [hag]
    exact List.nodup_dedup _
  · have hperm : List.Perm (sortedSession invs f.session_id)
        (sessionInvocations invs f.session_id) := List.perm_insertionSort _ _
    have hlen := ((hperm.map (fun i => i.agent_name)).dedup).length_eq
    unfold sessionAgents at h2
    omega

/-- Witness for C7 at the concrete session `exSquad`. -/
theorem c7_formation_minimum_witness :
    2 ≤ exSquadFormation.agents.length ∧ exSquadFormation.agents.Nodup ∧
      2 ≤ (((sessionInvocations exSquad exSquadFormation.session_id).map
          (fun i => i.agent_name)).dedup).length :=
  c7_formation_minimum exSquad exSquadFormation (mem_headD_of_ne_nil _ _ (by decide))

/-- C8 counterexample: the formation for a session that invokes
`test-engineer` before `backend-architect` lists the agents in that
(first-occurrence) order, which is not the sorted order — the code never
sorts `list(set(...))`. -/
theorem c8_counterexample :
    (detectSquadFormations exC8).map (fun f => f.agents) =
        [["test-engineer", "backend-architect"]] ∧
      ¬ List.Sorted (fun a b => strLeB a b = true) ["test-engineer", "backend-architect"] :=
  ⟨by decide, by decide⟩

/-- C8 (amended): every formation's `agents` field is a duplicate-free list
whose members are exactly the agent names occurring in that session's
invocations; its order is that of Python's set iteration (modelled as
first-occurrence order), not sorted. -/
theorem c8_agents_characterization (invs : List AgentInvocation) (f : SquadFormation)
    (hf : f ∈ detectSquadFormations invs) :
    f.agents.Nodup ∧
      ∀ a : String, a ∈ f.agents ↔
        a ∈ (sessionInvocations invs f.session_id).map (fun i => i.agent_name) := by
  obtain ⟨sid, h⟩ := mem_detectSquadFormations hf
  obtain ⟨_, hsid, hag, _, _, _⟩ := formationOfSession_some h
  subst hsid
  constructor
  · rw [hag]
    exact List.nodup_dedup _
  · intro a
    rw [hag]
    unfold sessionAgents
    rw [List.mem_dedup]
    exact List.Perm.mem_iff ((List.perm_insertionSort _ _).map _)

/-- Witness for C8 (amended) at the concrete session `exSquad`. -/
theorem c8_agents_characterization_witness :
    exSquadFormation.agents.Nodup ∧
      ∀ a : String, a ∈ exSquadFormation.agents ↔
        a ∈ (sessionInvocations exSquad exSquadFormation.session_id).map
          (fun i => i.agent_name) :=
  c8_agents_characterization exSquad exSquadFormation (mem_headD_of_ne_nil _ _ (by decide))
